import Mathlib

/-!
# Verification of the env-monitor sensor decoding (src/main.rs)

Shallow embedding of the decoding core of `src/main.rs`: the LPS25H
pressure/temperature decoder (`read_lps25h`), the HTS221 humidity/temperature
decoder (`read_hts221`), the record formatting in `main`, and the
error-propagation structure of the bus transactions.

Modelling conventions:
* bytes (`u8`) are `Fin 256`;
* wider machine integers are `Nat`/`Int`; Rust release-mode two's-complement
  wrap-around of `i16`/`i32` arithmetic is made explicit by `wrapI16`/`wrapI32`,
  and wrapping `u8`/`u16` subtraction by `subU8`/`subU16`;
* Rust `as` reinterpretation casts are `u16ToI16`/`u32ToI32`;
* Rust signed division is `Int.tdiv` (truncation toward zero); unsigned
  division is `Nat` division;
* fallible bus operations are `Except`-valued fields of a bus record, one per
  transaction the source performs, in program order.
-/

/-- Reinterpretation of a `u16` bit pattern as an `i16` (Rust `as i16`). -/
def u16ToI16 (n : Nat) : Int :=
  if n % 65536 < 32768 then ((n % 65536 : Nat) : Int) else ((n % 65536 : Nat) : Int) - 65536

/-- Reinterpretation of a `u32` bit pattern as an `i32` (Rust `as i32`). -/
def u32ToI32 (n : Nat) : Int :=
  if n % 4294967296 < 2147483648 then ((n % 4294967296 : Nat) : Int)
  else ((n % 4294967296 : Nat) : Int) - 4294967296

/-- Two's-complement wrap-around into the `i16` range: the value produced by a
Rust release-mode `i16` operation, sign-extended (`as i32`). -/
def wrapI16 (z : Int) : Int := (z + 32768) % 65536 - 32768

/-- Two's-complement wrap-around into the `i32` range (Rust release-mode `i32`
arithmetic). -/
def wrapI32 (z : Int) : Int := (z + 2147483648) % 4294967296 - 2147483648

/-- Rust release-mode wrapping `u8` subtraction `a - b`, zero-extended to `i32`
(the value of `(a - b) as i32` for `u8` operands). -/
def subU8 (a b : Nat) : Int := ((a : Int) - (b : Int)) % 256

/-- Rust release-mode wrapping `u16` subtraction `a - b`, zero-extended to `i32`
(the value of `(a - b) as i32` for `u16` operands). -/
def subU16 (a b : Nat) : Int := ((a : Int) - (b : Int)) % 65536

/-- Rust `i32::clamp(lo, hi)`: `lo` below the range, `hi` above it, `x` inside. -/
def clampI (x lo hi : Int) : Int := if x < lo then lo else if hi < x then hi else x

/-- The 5-byte raw block `data` read from the LPS25H in `read_lps25h`
(src/main.rs line 37). -/
structure RawBlock5 where
  b0 : Fin 256
  b1 : Fin 256
  b2 : Fin 256
  b3 : Fin 256
  b4 : Fin 256

/-- The 16-byte calibration block `calib` read from the HTS221 in `read_hts221`
(src/main.rs line 52). -/
structure CalibrationBlock where
  b0 : Fin 256
  b1 : Fin 256
  b2 : Fin 256
  b3 : Fin 256
  b4 : Fin 256
  b5 : Fin 256
  b6 : Fin 256
  b7 : Fin 256
  b8 : Fin 256
  b9 : Fin 256
  b10 : Fin 256
  b11 : Fin 256
  b12 : Fin 256
  b13 : Fin 256
  b14 : Fin 256
  b15 : Fin 256

/-- The 4-byte raw block `data` read from the HTS221 in `read_hts221`
(src/main.rs line 71). -/
structure RawBlock4 where
  b0 : Fin 256
  b1 : Fin 256
  b2 : Fin 256
  b3 : Fin 256

/-- Value `press_raw` of `read_lps25h` (src/main.rs line 41): bytes 2,1,0 shifted
into a `u32` (byte 2 most significant) and reinterpreted `as i32`. -/
def press_raw (data : RawBlock5) : Int :=
  u32ToI32 ((((data.b2 : Nat) <<< 16) ||| ((data.b1 : Nat) <<< 8)) ||| (data.b0 : Nat))

/-- Value `temp_raw` of `read_lps25h` (src/main.rs line 42): bytes 4,3 as a `u16`
(byte 4 most significant) reinterpreted `as i16`. -/
def temp_raw (data : RawBlock5) : Int :=
  u16ToI16 (((data.b4 : Nat) <<< 8) ||| (data.b3 : Nat))

/-- Pure decoding part of `read_lps25h` (src/main.rs lines 41-47):
`press_raw / 4096` hPa and `425 + temp_raw / 48` tenths of °C, truncating
`i32` division. -/
def lps25h_decode (data : RawBlock5) : Int × Int :=
  (Int.tdiv (press_raw data) 4096, 425 + Int.tdiv (temp_raw data) 48)

/-- Field `t0_deg_c_x8` of `read_hts221` (src/main.rs line 56). -/
def t0_deg_c_x8 (c : CalibrationBlock) : Nat := (c.b2 : Nat) ||| (((c.b5 : Nat) &&& 0x03) <<< 8)

/-- Field `t1_deg_c_x8` of `read_hts221` (src/main.rs line 57). -/
def t1_deg_c_x8 (c : CalibrationBlock) : Nat := (c.b3 : Nat) ||| (((c.b5 : Nat) &&& 0x0C) <<< 6)

/-- Field `t0_deg_c` of `read_hts221` (src/main.rs line 58), `u16` division. -/
def t0_deg_c (c : CalibrationBlock) : Nat := t0_deg_c_x8 c / 8

/-- Field `t1_deg_c` of `read_hts221` (src/main.rs line 59), `u16` division. -/
def t1_deg_c (c : CalibrationBlock) : Nat := t1_deg_c_x8 c / 8

/-- Field `t0_out` of `read_hts221` (src/main.rs line 60). -/
def t0_out (c : CalibrationBlock) : Int := u16ToI16 ((c.b12 : Nat) ||| ((c.b13 : Nat) <<< 8))

/-- Field `t1_out` of `read_hts221` (src/main.rs line 61). -/
def t1_out (c : CalibrationBlock) : Int := u16ToI16 ((c.b14 : Nat) ||| ((c.b15 : Nat) <<< 8))

/-- Field `h0_rh` of `read_hts221` (src/main.rs lines 63, 67), `u8` division. -/
def h0_rh (c : CalibrationBlock) : Nat := (c.b0 : Nat) / 2

/-- Field `h1_rh` of `read_hts221` (src/main.rs lines 64, 68), `u8` division. -/
def h1_rh (c : CalibrationBlock) : Nat := (c.b1 : Nat) / 2

/-- Field `h0_t0_out` of `read_hts221` (src/main.rs line 65). -/
def h0_t0_out (c : CalibrationBlock) : Int := u16ToI16 ((c.b6 : Nat) ||| ((c.b7 : Nat) <<< 8))

/-- Field `h1_t0_out` of `read_hts221` (src/main.rs line 66). -/
def h1_t0_out (c : CalibrationBlock) : Int := u16ToI16 ((c.b10 : Nat) ||| ((c.b11 : Nat) <<< 8))

/-- Field `t_out` of `read_hts221` (src/main.rs line 74). -/
def t_out (d : RawBlock4) : Int := u16ToI16 (((d.b3 : Nat) <<< 8) ||| (d.b2 : Nat))

/-- Field `h_out` of `read_hts221` (src/main.rs line 75). -/
def h_out (d : RawBlock4) : Int := u16ToI16 (((d.b1 : Nat) <<< 8) ||| (d.b0 : Nat))

/-- Temperature path of `read_hts221` (src/main.rs lines 77-82).  The `i16`
subtractions `t_out - t0_out` and `t1_out - t0_out`, the `u16` subtraction
`t1_deg_c - t0_deg_c`, and the `i32` multiplication and final addition are
release-mode wrapping operations, hence the explicit `wrapI16`/`wrapI32`/
`subU16`.  The division is `Int.tdiv` as in Rust. -/
def hts_temp (c : CalibrationBlock) (d : RawBlock4) : Int :=
  if t1_out c ≠ t0_out c then
    let tmp32 := wrapI32 (wrapI16 (t_out d - t0_out c) * wrapI32 (subU16 (t1_deg_c c) (t0_deg_c c) * 10))
    wrapI32 (Int.tdiv tmp32 (wrapI16 (t1_out c - t0_out c)) + (t0_deg_c c : Int) * 10)
  else (t0_deg_c c : Int) * 10

/-- Humidity path of `read_hts221` (src/main.rs lines 84-90): `tmp` is computed
unconditionally (line 84), the guarded interpolation picks `h0_rh` on a
degenerate span (lines 85-89), and the result is scaled by 10 and clamped to
`[0, 1000]` (line 90).  Wrapping conventions as in `hts_temp`. -/
def hts_hum (c : CalibrationBlock) (d : RawBlock4) : Int :=
  let tmp := wrapI32 (wrapI16 (h_out d - h0_t0_out c) * subU8 (h1_rh c) (h0_rh c))
  let hum := if h1_t0_out c ≠ h0_t0_out c
    then wrapI32 (Int.tdiv tmp (wrapI16 (h1_t0_out c - h0_t0_out c)) + (h0_rh c : Int))
    else (h0_rh c : Int)
  clampI (wrapI32 (hum * 10)) 0 1000

/-- The spec's signed 16-bit little-endian reinterpretation, written directly
from the spec's words ("signed 16-bit raw reference outputs"): values at or
above `2^15` represent negatives. -/
def sgn16 (n : Nat) : Int := if n < 32768 then (n : Int) else (n : Int) - 65536

/-- Pressure decoding as the claim states it: the 24-bit little-endian value
"reinterpreted as a signed 32-bit two's-complement quantity with sign extension
when bit 23 is set", then divided by 4096 with truncating division.  Written
from the claim's words, for comparison with `lps25h_decode`. -/
def lps25hSpecPressure (data : RawBlock5) : Int :=
  let raw24 : Nat := (data.b0 : Nat) + 256 * (data.b1 : Nat) + 65536 * (data.b2 : Nat)
  let signed : Int := if raw24 < 8388608 then (raw24 : Int) else (raw24 : Int) - 16777216
  Int.tdiv signed 4096

/-- Humidity output as the claim states it: two-point interpolation
`(h_out - h0_t0_out) * (h1_rh - h0_rh) / (h1_t0_out - h0_t0_out) + h0_rh` over
the integers with truncating division (degenerate span giving `h0_rh`), then
scaled by 10, then clamped to `[0, 1000]`.  Written from the claim's words, for
comparison with `hts_hum`. -/
def specHumidity (c : CalibrationBlock) (d : RawBlock4) : Int :=
  let interp : Int :=
    if h1_t0_out c ≠ h0_t0_out c then
      Int.tdiv ((h_out d - h0_t0_out c) * ((h1_rh c : Int) - (h0_rh c : Int)))
        (h1_t0_out c - h0_t0_out c) + (h0_rh c : Int)
    else (h0_rh c : Int)
  clampI (interp * 10) 0 1000

/-- Temperature output as the claim states it:
`(t_out - t0_out) * (t1_degC - t0_degC) * 10 / (t1_out - t0_out) + t0_degC * 10`
over the integers with truncating division, `t0_degC * 10` on a degenerate
span.  Written from the claim's words, for comparison with `hts_temp`. -/
def specTemperature (c : CalibrationBlock) (d : RawBlock4) : Int :=
  if t1_out c ≠ t0_out c then
    Int.tdiv ((t_out d - t0_out c) * ((t1_deg_c c : Int) - (t0_deg_c c : Int)) * 10)
      (t1_out c - t0_out c) + (t0_deg_c c : Int) * 10
  else (t0_deg_c c : Int) * 10

/-- The claim's "no intermediate arithmetic step overflows or underflows" for
the humidity computation: each fixed-width subtraction feeding it stays within
its machine type (`h1_rh - h0_rh` in `u8`, the two `i16` differences in `i16`).
Written from the claim's words, for comparison with what the code does. -/
def humNoOverflow (c : CalibrationBlock) (d : RawBlock4) : Prop :=
  (h0_rh c : Int) ≤ (h1_rh c : Int) ∧
  -32768 ≤ h_out d - h0_t0_out c ∧ h_out d - h0_t0_out c ≤ 32767 ∧
  -32768 ≤ h1_t0_out c - h0_t0_out c ∧ h1_t0_out c - h0_t0_out c ≤ 32767

instance (c : CalibrationBlock) (d : RawBlock4) : Decidable (humNoOverflow c d) := by
  unfold humNoOverflow
  infer_instance

/-- The output line built by `main` (src/main.rs lines 116-119):
`format!("{}\t{:.2}\t{:.2}\t{:.2}\t{:.2}", ...)`.  All five arguments are
integers (`i64`/`i32`); Rust's `std::fmt` ignores the `.2` precision for
integer types, so each field renders as its plain decimal representation. -/
def formatRecord (timestamp pressure temp_press humidity temp_hum : Int) : String :=
  toString timestamp ++ "\t" ++ toString pressure ++ "\t" ++ toString temp_press ++ "\t"
    ++ toString humidity ++ "\t" ++ toString temp_hum

/-- The output line as the claim states it: each of the four numeric sensor
fields "rendered with exactly two decimal digits" (the values are integral, so
a two-decimal rendering carries a literal `.00` suffix).  Written from the
claim's words, for comparison with `formatRecord`. -/
def specFormatRecord (timestamp pressure temp_press humidity temp_hum : Int) : String :=
  toString timestamp ++ "\t" ++ toString pressure ++ ".00" ++ "\t" ++ toString temp_press
    ++ ".00" ++ "\t" ++ toString humidity ++ ".00" ++ "\t" ++ toString temp_hum ++ ".00"

/-- Outcomes of the LPS25H bus transactions performed by `read_lps25h`, in
program order: the command-byte write (src/main.rs line 38) and the 5-byte read
(line 39).  Each field is the `Except` result that transaction returns. -/
structure LpsBus (ε : Type) where
  writeCmd : Except ε Unit
  readData : Except ε RawBlock5

/-- Outcomes of the HTS221 bus transactions performed by `read_hts221`, in
program order: calibration command write and 16-byte read (src/main.rs lines
53-54), then data command write and 4-byte read (lines 72-73). -/
structure HtsBus (ε : Type) where
  writeCalibCmd : Except ε Unit
  readCalib : Except ε CalibrationBlock
  writeDataCmd : Except ε Unit
  readData : Except ε RawBlock4

/-- Function `read_lps25h` (src/main.rs lines 35-48): `?`-propagation of the two bus
operations, then the pure decode of the 5 bytes. -/
def read_lps25h {ε : Type} (bus : LpsBus ε) : Except ε (Int × Int) := do
  let _ ← bus.writeCmd
  let data ← bus.readData
  pure (lps25h_decode data)

/-- Function `read_hts221` (src/main.rs lines 50-92): `?`-propagation of the four bus
operations, then the pure decode, returning `Ok((hum, temp))`. -/
def read_hts221 {ε : Type} (bus : HtsBus ε) : Except ε (Int × Int) := do
  let _ ← bus.writeCalibCmd
  let calib ← bus.readCalib
  let _ ← bus.writeDataCmd
  let data ← bus.readData
  pure (hts_hum calib data, hts_temp calib data)

/-- The decode-and-format path of `main` (src/main.rs lines 110-119): the two
sensor results are joined, LPS25H first (lines 112-113, each `await??`), and
only if both succeed is the output line built.  Power-on, the settle delay and
the output sink are the excluded collaborators. -/
def runMain {ε : Type} (lps : LpsBus ε) (hts : HtsBus ε) (timestamp : Int) : Except ε String := do
  let (pressure, temp_press) ← read_lps25h lps
  let (humidity, temp_hum) ← read_hts221 hts
  pure (formatRecord timestamp pressure temp_press humidity temp_hum)




/-! ## Helper lemmas: bit assembly as arithmetic, wrap-around identities -/

theorem lor_add_of_lt {a : Nat} (b n : Nat) (h : a < 2 ^ n) :
    a ||| (2 ^ n * b) = 2 ^ n * b + a := by
  apply Nat.eq_of_testBit_eq
  intro j
  rw [Nat.testBit_or, Nat.testBit_mul_pow_two_add b h j]
  by_cases hj : j < n
  · have hz : (2 ^ n * b).testBit j = false := by
      rw [Nat.mul_comm, ← Nat.shiftLeft_eq, Nat.testBit_shiftLeft]
      simp [Nat.not_le.mpr hj]
    simp [hj, hz]
  · have ha : a.testBit j = false :=
      Nat.testBit_lt_two_pow (Nat.lt_of_lt_of_le h (Nat.pow_le_pow_right (by norm_num) (Nat.not_lt.mp hj)))
    have hb : (2 ^ n * b).testBit j = b.testBit (j - n) := by
      rw [Nat.mul_comm, ← Nat.shiftLeft_eq, Nat.testBit_shiftLeft]
      simp [Nat.not_lt.mp hj]
    simp [hj, ha, hb]

theorem byte_lor_shift8 {a : Nat} (b : Nat) (ha : a < 256) :
    a ||| (b <<< 8) = a + 256 * b := by
  have h1 : b <<< 8 = 2 ^ 8 * b := by rw [Nat.shiftLeft_eq]; ring
  rw [h1, lor_add_of_lt b 8 (by omega)]
  ring

theorem three_bytes_lor {x y : Nat} (z : Nat) (hx : x < 256) (hy : y < 256) :
    ((z <<< 16) ||| (y <<< 8)) ||| x = 65536 * z + 256 * y + x := by
  have h1 : (z <<< 16) ||| (y <<< 8) = 65536 * z + 256 * y := by
    rw [Nat.lor_comm]
    have h2 : z <<< 16 = 2 ^ 16 * z := by rw [Nat.shiftLeft_eq]; ring
    have h3 : y <<< 8 = y * 256 := by rw [Nat.shiftLeft_eq]
    rw [h2, h3, lor_add_of_lt z 16 (by omega)]
    ring
  rw [h1, Nat.lor_comm]
  have h4 : 65536 * z + 256 * y = 2 ^ 8 * (256 * z + y) := by ring
  rw [h4, lor_add_of_lt _ 8 hx]

set_option maxRecDepth 4000 in
theorem land3 : ∀ b : Fin 256, ((b : Nat) &&& 3) = (b : Nat) % 4 := by decide

set_option maxRecDepth 4000 in
theorem land12_shift6 : ∀ b : Fin 256, (((b : Nat) &&& 12) <<< 6) = 256 * (((b : Nat) / 4) % 4) := by decide

theorem tdiv_bounds (a b A : Int) (h1 : -A ≤ a) (h2 : a ≤ A) :
    -A ≤ Int.tdiv a b ∧ Int.tdiv a b ≤ A := by
  have h3 : (Int.tdiv a b).natAbs ≤ a.natAbs := by
    rw [Int.natAbs_tdiv]; exact Nat.div_le_self _ _
  omega

theorem tdiv_coe_nat (m n : Nat) : Int.tdiv (m : Int) (n : Int) = ((m / n : Nat) : Int) := rfl

theorem wrapI16_eq_self {z : Int} (h1 : -32768 ≤ z) (h2 : z ≤ 32767) : wrapI16 z = z := by
  unfold wrapI16
  omega

theorem wrapI32_eq_self {z : Int} (h1 : -2147483648 ≤ z) (h2 : z ≤ 2147483647) : wrapI32 z = z := by
  unfold wrapI32
  omega

theorem wrapI16_bounds (z : Int) : -32768 ≤ wrapI16 z ∧ wrapI16 z ≤ 32767 := by
  unfold wrapI16
  omega

theorem wrapI32_bounds (z : Int) : -2147483648 ≤ wrapI32 z ∧ wrapI32 z ≤ 2147483647 := by
  unfold wrapI32
  omega

theorem subU8_bounds (a b : Nat) : 0 ≤ subU8 a b ∧ subU8 a b ≤ 255 := by
  unfold subU8
  omega

theorem subU8_eq_sub {a b : Nat} (h1 : b ≤ a) (h2 : a - b < 256) : subU8 a b = (a : Int) - b := by
  unfold subU8
  omega

theorem subU16_eq_sub {a b : Nat} (h1 : b ≤ a) (h2 : a - b < 65536) : subU16 a b = (a : Int) - b := by
  unfold subU16
  omega

theorem u16ToI16_bounds (n : Nat) : -32768 ≤ u16ToI16 n ∧ u16ToI16 n ≤ 32767 := by
  unfold u16ToI16
  split <;> omega

theorem u16ToI16_of_lt {n : Nat} (h : n < 65536) : u16ToI16 n = sgn16 n := by
  unfold u16ToI16 sgn16
  rw [Nat.mod_eq_of_lt h]

theorem u32ToI32_of_lt {n : Nat} (h : n < 2147483648) : u32ToI32 n = (n : Int) := by
  unfold u32ToI32
  rw [Nat.mod_eq_of_lt (by omega)]
  simp [h]

theorem clampI_bounds (x lo hi : Int) (h : lo ≤ hi) :
    lo ≤ clampI x lo hi ∧ clampI x lo hi ≤ hi := by
  unfold clampI
  split <;> [omega; (split <;> omega)]

/-! ## Arithmetic characterization of the extracted fields -/

theorem lohi_eq (a b : Fin 256) :
    (a : Nat) ||| ((b : Nat) <<< 8) = (a : Nat) + 256 * (b : Nat) :=
  byte_lor_shift8 _ a.isLt

theorem lohi_lt (a b : Fin 256) : (a : Nat) + 256 * (b : Nat) < 65536 := by
  have := a.isLt
  have := b.isLt
  omega

theorem t0_deg_c_eq (c : CalibrationBlock) :
    t0_deg_c c = ((c.b2 : Nat) + 256 * ((c.b5 : Nat) % 4)) / 8 := by
  unfold t0_deg_c t0_deg_c_x8
  rw [land3 c.b5, byte_lor_shift8 _ c.b2.isLt]

theorem t1_deg_c_eq (c : CalibrationBlock) :
    t1_deg_c c = ((c.b3 : Nat) + 256 * (((c.b5 : Nat) / 4) % 4)) / 8 := by
  unfold t1_deg_c t1_deg_c_x8
  rw [land12_shift6 c.b5,
    show (256 : Nat) * (((c.b5 : Nat) / 4) % 4) = 2 ^ 8 * (((c.b5 : Nat) / 4) % 4) from by norm_num,
    lor_add_of_lt _ 8 c.b3.isLt]
  omega

theorem t0_out_eq (c : CalibrationBlock) :
    t0_out c = sgn16 ((c.b12 : Nat) + 256 * (c.b13 : Nat)) := by
  unfold t0_out
  rw [lohi_eq, u16ToI16_of_lt (lohi_lt _ _)]

theorem t1_out_eq (c : CalibrationBlock) :
    t1_out c = sgn16 ((c.b14 : Nat) + 256 * (c.b15 : Nat)) := by
  unfold t1_out
  rw [lohi_eq, u16ToI16_of_lt (lohi_lt _ _)]

theorem h0_t0_out_eq (c : CalibrationBlock) :
    h0_t0_out c = sgn16 ((c.b6 : Nat) + 256 * (c.b7 : Nat)) := by
  unfold h0_t0_out
  rw [lohi_eq, u16ToI16_of_lt (lohi_lt _ _)]

theorem h1_t0_out_eq (c : CalibrationBlock) :
    h1_t0_out c = sgn16 ((c.b10 : Nat) + 256 * (c.b11 : Nat)) := by
  unfold h1_t0_out
  rw [lohi_eq, u16ToI16_of_lt (lohi_lt _ _)]

theorem t_out_eq (d : RawBlock4) :
    t_out d = sgn16 ((d.b2 : Nat) + 256 * (d.b3 : Nat)) := by
  unfold t_out
  rw [Nat.lor_comm, lohi_eq, u16ToI16_of_lt (lohi_lt _ _)]

theorem h_out_eq (d : RawBlock4) :
    h_out d = sgn16 ((d.b0 : Nat) + 256 * (d.b1 : Nat)) := by
  unfold h_out
  rw [Nat.lor_comm, lohi_eq, u16ToI16_of_lt (lohi_lt _ _)]

theorem temp_raw_eq (d : RawBlock5) :
    temp_raw d = sgn16 ((d.b3 : Nat) + 256 * (d.b4 : Nat)) := by
  unfold temp_raw
  rw [Nat.lor_comm, lohi_eq, u16ToI16_of_lt (lohi_lt _ _)]

theorem press_raw_eq (data : RawBlock5) :
    press_raw data
      = (((data.b0 : Nat) + 256 * (data.b1 : Nat) + 65536 * (data.b2 : Nat) : Nat) : Int) := by
  unfold press_raw
  rw [three_bytes_lor _ data.b0.isLt data.b1.isLt]
  have h0 := data.b0.isLt
  have h1 := data.b1.isLt
  have h2 := data.b2.isLt
  rw [u32ToI32_of_lt (by omega)]
  omega

theorem t0_deg_c_le (c : CalibrationBlock) : t0_deg_c c ≤ 127 := by
  rw [t0_deg_c_eq]
  have := c.b2.isLt
  omega

theorem t1_deg_c_le (c : CalibrationBlock) : t1_deg_c c ≤ 127 := by
  rw [t1_deg_c_eq]
  have := c.b3.isLt
  omega

theorem h0_rh_le (c : CalibrationBlock) : h0_rh c ≤ 127 := by
  unfold h0_rh
  have := c.b0.isLt
  omega

theorem h1_rh_le (c : CalibrationBlock) : h1_rh c ≤ 127 := by
  unfold h1_rh
  have := c.b1.isLt
  omega

/-! ## Claim theorems -/

/-- C6: the calibration fields extracted from the 16-byte block are exactly the
bit-layout the spec describes: `h0_rh`/`h1_rh` are bytes 0,1 halved; the two
temperature reference points are 10-bit values with low 8 bits from bytes 2,3
and high 2 bits from byte 5 (bits 0-1 for t0, bits 2-3 for t1), divided by 8;
and the four raw reference outputs are the signed 16-bit little-endian values
at byte pairs (12,13), (14,15), (6,7) and (10,11). -/
theorem hts221_calibration_extraction (c : CalibrationBlock) :
    h0_rh c = (c.b0 : Nat) / 2 ∧
    h1_rh c = (c.b1 : Nat) / 2 ∧
    t0_deg_c c = ((c.b2 : Nat) + 256 * ((c.b5 : Nat) % 4)) / 8 ∧
    t1_deg_c c = ((c.b3 : Nat) + 256 * (((c.b5 : Nat) / 4) % 4)) / 8 ∧
    t0_out c = sgn16 ((c.b12 : Nat) + 256 * (c.b13 : Nat)) ∧
    t1_out c = sgn16 ((c.b14 : Nat) + 256 * (c.b15 : Nat)) ∧
    h0_t0_out c = sgn16 ((c.b6 : Nat) + 256 * (c.b7 : Nat)) ∧
    h1_t0_out c = sgn16 ((c.b10 : Nat) + 256 * (c.b11 : Nat)) :=
  ⟨rfl, rfl, t0_deg_c_eq c, t1_deg_c_eq c, t0_out_eq c, t1_out_eq c, h0_t0_out_eq c,
    h1_t0_out_eq c⟩

/-- C5: for every 5-byte raw block the LPS25H temperature output is
`425 + raw16 / 48` where `raw16` is the signed 16-bit little-endian value of
bytes 3,4 and the division truncates toward zero. -/
theorem lps25h_temperature_formula (d : RawBlock5) :
    (lps25h_decode d).2 = 425 + Int.tdiv (sgn16 ((d.b3 : Nat) + 256 * (d.b4 : Nat))) 48 := by
  unfold lps25h_decode
  rw [temp_raw_eq]

/-- C3 (corrected): the 24-bit pressure value is zero-extended into the 32-bit
word, never sign-extended, so the output is the unsigned 24-bit value divided
by 4096 (truncating); the claim's example bytes `[0,0,0x60,0,0]` do yield
pressure 1536 and temperature 425. -/
theorem lps25h_pressure_zero_extension (d : RawBlock5) :
    (lps25h_decode d).1
      = Int.tdiv (((d.b0 : Nat) + 256 * (d.b1 : Nat) + 65536 * (d.b2 : Nat) : Nat) : Int) 4096 ∧
    lps25h_decode ⟨0, 0, 0x60, 0, 0⟩ = (1536, 425) := by
  constructor
  · unfold lps25h_decode
    rw [press_raw_eq]
  · decide

/-- C3 counterexample: on bytes `[0,0,0x80,0,0]` (bit 23 set) the code yields
+2048, not the -2048 required by the claim's sign-extending interpretation. -/
theorem lps25h_pressure_sign_extension_refuted :
    (lps25h_decode ⟨0, 0, 0x80, 0, 0⟩).1 ≠ lps25hSpecPressure ⟨0, 0, 0x80, 0, 0⟩ := by
  decide

/-- C9: for every 5-byte raw block `press_raw` lies in `[0, 16777215]` (the top
8 bits of the assembled `u32` are zero, so a set bit 23 is never sign-extended)
and the pressure output lies in `[0, 4095]`. -/
theorem lps25h_pressure_invariant (d : RawBlock5) :
    0 ≤ press_raw d ∧ press_raw d ≤ 16777215 ∧
    0 ≤ (lps25h_decode d).1 ∧ (lps25h_decode d).1 ≤ 4095 := by
  have h0 := d.b0.isLt
  have h1 := d.b1.isLt
  have h2 := d.b2.isLt
  unfold lps25h_decode
  rw [press_raw_eq]
  have ht : Int.tdiv (((d.b0 : Nat) + 256 * (d.b1 : Nat) + 65536 * (d.b2 : Nat) : Nat) : Int) 4096
      = ((((d.b0 : Nat) + 256 * (d.b1 : Nat) + 65536 * (d.b2 : Nat)) / 4096 : Nat) : Int) := rfl
  rw [ht]
  omega

theorem clamp_times_ten_dvd (hum : Int) (h1 : -214748364 ≤ hum) (h2 : hum ≤ 214748364) :
    10 ∣ clampI (wrapI32 (hum * 10)) 0 1000 := by
  rw [wrapI32_eq_self (by omega) (by omega)]
  unfold clampI
  split
  · exact ⟨0, by norm_num⟩
  · split
    · exact ⟨100, by norm_num⟩
    · exact ⟨hum, by ring⟩

/-- C10: the humidity output is always an exact multiple of 10 — interpolation
happens in whole %RH, the ×10 scaling comes after it, and both clamp bounds are
themselves multiples of 10. -/
theorem hts221_humidity_multiple_of_ten (c : CalibrationBlock) (d : RawBlock4) :
    10 ∣ hts_hum c d := by
  simp only [hts_hum]
  have hw := wrapI16_bounds (h_out d - h0_t0_out c)
  have hs := subU8_bounds (h1_rh c) (h0_rh c)
  have hp1 : -8355840 ≤ wrapI16 (h_out d - h0_t0_out c) * subU8 (h1_rh c) (h0_rh c) := by
    nlinarith [hw.1, hw.2, hs.1, hs.2]
  have hp2 : wrapI16 (h_out d - h0_t0_out c) * subU8 (h1_rh c) (h0_rh c) ≤ 8355585 := by
    nlinarith [hw.1, hw.2, hs.1, hs.2]
  rw [wrapI32_eq_self (by omega : -2147483648 ≤ wrapI16 (h_out d - h0_t0_out c) * subU8 (h1_rh c) (h0_rh c)) (by omega)]
  have hh0 := h0_rh_le c
  by_cases hc : h1_t0_out c ≠ h0_t0_out c
  · rw [if_pos hc]
    have hq := tdiv_bounds (wrapI16 (h_out d - h0_t0_out c) * subU8 (h1_rh c) (h0_rh c))
      (wrapI16 (h1_t0_out c - h0_t0_out c)) 8355840 (by omega) (by omega)
    rw [wrapI32_eq_self
      (by omega : -2147483648 ≤ Int.tdiv (wrapI16 (h_out d - h0_t0_out c) * subU8 (h1_rh c) (h0_rh c)) (wrapI16 (h1_t0_out c - h0_t0_out c)) + (h0_rh c : Int))
      (by omega)]
    exact clamp_times_ten_dvd _ (by omega) (by omega)
  · rw [if_neg hc]
    exact clamp_times_ten_dvd _ (by omega) (by omega)

/-- C4 (corrected): the humidity output always lies in `[0, 1000]`, and the
interpolation division is guarded — whenever the non-degenerate branch is
taken, its `i32` divisor (the wrapped `i16` difference `h1_t0_out - h0_t0_out`)
is nonzero, so no division by zero is reachable. -/
theorem hts221_humidity_saturation (c : CalibrationBlock) (d : RawBlock4) :
    0 ≤ hts_hum c d ∧ hts_hum c d ≤ 1000 ∧
    (h1_t0_out c ≠ h0_t0_out c → wrapI16 (h1_t0_out c - h0_t0_out c) ≠ 0) := by
  refine ⟨?_, ?_, ?_⟩
  · simp only [hts_hum]
    exact (clampI_bounds _ _ _ (by norm_num)).1
  · simp only [hts_hum]
    exact (clampI_bounds _ _ _ (by norm_num)).2
  · intro hne h0
    apply hne
    have hb1 := u16ToI16_bounds ((c.b10 : Nat) ||| ((c.b11 : Nat) <<< 8))
    have hb2 := u16ToI16_bounds ((c.b6 : Nat) ||| ((c.b7 : Nat) <<< 8))
    unfold h1_t0_out h0_t0_out at *
    unfold wrapI16 at h0
    omega

/-- C4 counterexample: for the calibration block with byte 0 = 4 (all other
bytes zero) and an all-zero raw block, the subtraction `h1_rh - h0_rh`
underflows its `u8` type (`0 - 2`), so the claim's "no intermediate arithmetic
step overflows or underflows" fails even though the output range holds. -/
theorem hts221_humidity_overflow_counterexample :
    ¬ (0 ≤ hts_hum ⟨4, 0, 0, 0, 0, 0, 0, 0, 0, 0, 0, 0, 0, 0, 0, 0⟩ ⟨0, 0, 0, 0⟩ ∧
       hts_hum ⟨4, 0, 0, 0, 0, 0, 0, 0, 0, 0, 0, 0, 0, 0, 0, 0⟩ ⟨0, 0, 0, 0⟩ ≤ 1000 ∧
       humNoOverflow ⟨4, 0, 0, 0, 0, 0, 0, 0, 0, 0, 0, 0, 0, 0, 0, 0⟩ ⟨0, 0, 0, 0⟩) := by
  decide

/-- C1 (corrected): when the fixed-width subtractions feeding the humidity
interpolation do not wrap (`h0_rh ≤ h1_rh` and both `i16` differences within
`i16` range), the output equals the claim's formula — interpolate in whole %RH
with truncating division, then scale by 10, then clamp to `[0, 1000]` — and on
a degenerate span the output is `clamp(h0_rh * 10, 0, 1000)` unconditionally. -/
theorem hts221_humidity_formula (c : CalibrationBlock) (d : RawBlock4)
    (hrh : h0_rh c ≤ h1_rh c)
    (hlo1 : -32768 ≤ h_out d - h0_t0_out c) (hhi1 : h_out d - h0_t0_out c ≤ 32767)
    (hlo2 : -32768 ≤ h1_t0_out c - h0_t0_out c) (hhi2 : h1_t0_out c - h0_t0_out c ≤ 32767) :
    hts_hum c d = specHumidity c d ∧
    ∀ (c2 : CalibrationBlock) (d2 : RawBlock4), h1_t0_out c2 = h0_t0_out c2 →
      hts_hum c2 d2 = clampI ((h0_rh c2 : Int) * 10) 0 1000 := by
  have hr0 := h0_rh_le c
  have hr1 := h1_rh_le c
  constructor
  · simp only [hts_hum, specHumidity]
    rw [subU8_eq_sub hrh (by omega), wrapI16_eq_self hlo1 hhi1, wrapI16_eq_self hlo2 hhi2]
    by_cases hc : h1_t0_out c ≠ h0_t0_out c
    · rw [if_pos hc, if_pos hc]
      have hB0 : (0 : Int) ≤ (h1_rh c : Int) - (h0_rh c : Int) := by omega
      have hB1 : (h1_rh c : Int) - (h0_rh c : Int) ≤ 127 := by omega
      have hp1 : -4161536 ≤ (h_out d - h0_t0_out c) * ((h1_rh c : Int) - (h0_rh c : Int)) := by
        nlinarith
      have hp2 : (h_out d - h0_t0_out c) * ((h1_rh c : Int) - (h0_rh c : Int)) ≤ 4161536 := by
        nlinarith
      rw [wrapI32_eq_self
        (by omega : -2147483648 ≤ (h_out d - h0_t0_out c) * ((h1_rh c : Int) - (h0_rh c : Int)))
        (by omega)]
      have hq := tdiv_bounds ((h_out d - h0_t0_out c) * ((h1_rh c : Int) - (h0_rh c : Int)))
        (h1_t0_out c - h0_t0_out c) 4161536 (by omega) (by omega)
      rw [wrapI32_eq_self
        (by omega : -2147483648 ≤ Int.tdiv ((h_out d - h0_t0_out c) * ((h1_rh c : Int) - (h0_rh c : Int))) (h1_t0_out c - h0_t0_out c) + (h0_rh c : Int))
        (by omega)]
      rw [wrapI32_eq_self
        (by omega : -2147483648 ≤ (Int.tdiv ((h_out d - h0_t0_out c) * ((h1_rh c : Int) - (h0_rh c : Int))) (h1_t0_out c - h0_t0_out c) + (h0_rh c : Int)) * 10)
        (by omega)]
    · rw [if_neg hc, if_neg hc]
      rw [wrapI32_eq_self (by omega : -2147483648 ≤ (h0_rh c : Int) * 10) (by omega)]
  · intro c2 d2 h
    have hr02 := h0_rh_le c2
    simp only [hts_hum]
    rw [if_neg (show ¬ h1_t0_out c2 ≠ h0_t0_out c2 from fun hn => hn h)]
    rw [wrapI32_eq_self (by omega : -2147483648 ≤ (h0_rh c2 : Int) * 10) (by omega)]

/-- C1 witness: the claim's own example — `h0_rh = 40, h1_rh = 80,
h0_t0_out = 0, h1_t0_out = 1000, h_out = 500` — satisfies the no-wrap
hypotheses, matches the claim's formula, and yields 600. -/
theorem hts221_humidity_formula_witness :
    hts_hum ⟨80, 160, 0, 0, 0, 0, 0, 0, 0, 0, 232, 3, 0, 0, 0, 0⟩ ⟨244, 1, 0, 0⟩
      = specHumidity ⟨80, 160, 0, 0, 0, 0, 0, 0, 0, 0, 232, 3, 0, 0, 0, 0⟩ ⟨244, 1, 0, 0⟩ ∧
    hts_hum ⟨80, 160, 0, 0, 0, 0, 0, 0, 0, 0, 232, 3, 0, 0, 0, 0⟩ ⟨244, 1, 0, 0⟩ = 600 :=
  ⟨(hts221_humidity_formula ⟨80, 160, 0, 0, 0, 0, 0, 0, 0, 0, 232, 3, 0, 0, 0, 0⟩ ⟨244, 1, 0, 0⟩
      (by decide) (by decide) (by decide) (by decide) (by decide)).1,
    by decide⟩

/-- C1 counterexample: with `h0_rh = 100, h1_rh = 0, h0_t0_out = 0,
h1_t0_out = 1000, h_out = 500` the `u8` subtraction `h1_rh - h0_rh` wraps to
156, so the code outputs 1000 while the claim's integer formula gives 500. -/
theorem hts221_humidity_formula_counterexample :
    hts_hum ⟨200, 0, 0, 0, 0, 0, 0, 0, 0, 0, 232, 3, 0, 0, 0, 0⟩ ⟨244, 1, 0, 0⟩
      ≠ specHumidity ⟨200, 0, 0, 0, 0, 0, 0, 0, 0, 0, 232, 3, 0, 0, 0, 0⟩ ⟨244, 1, 0, 0⟩ := by
  decide

/-- C2 (corrected): when the fixed-width subtractions feeding the temperature
interpolation do not wrap (`t0_degC ≤ t1_degC` and both `i16` differences
within `i16` range), the output equals the claim's formula
`(t_out - t0_out) * (t1_degC - t0_degC) * 10 / (t1_out - t0_out) + t0_degC * 10`
with truncating division; and on a degenerate span (`t1_out = t0_out`) the
output is `t0_degC * 10` unconditionally. -/
theorem hts221_temperature_formula (c : CalibrationBlock) (d : RawBlock4)
    (hdeg : t0_deg_c c ≤ t1_deg_c c)
    (hlo1 : -32768 ≤ t_out d - t0_out c) (hhi1 : t_out d - t0_out c ≤ 32767)
    (hlo2 : -32768 ≤ t1_out c - t0_out c) (hhi2 : t1_out c - t0_out c ≤ 32767) :
    hts_temp c d = specTemperature c d ∧
    ∀ (c2 : CalibrationBlock) (d2 : RawBlock4), t1_out c2 = t0_out c2 →
      hts_temp c2 d2 = (t0_deg_c c2 : Int) * 10 := by
  have ht0 := t0_deg_c_le c
  have ht1 := t1_deg_c_le c
  constructor
  · simp only [hts_temp, specTemperature]
    by_cases hc : t1_out c ≠ t0_out c
    · rw [if_pos hc, if_pos hc]
      rw [subU16_eq_sub hdeg (by omega), wrapI16_eq_self hlo1 hhi1, wrapI16_eq_self hlo2 hhi2]
      have hB0 : (0 : Int) ≤ (t1_deg_c c : Int) - (t0_deg_c c : Int) := by omega
      have hB1 : (t1_deg_c c : Int) - (t0_deg_c c : Int) ≤ 127 := by omega
      rw [wrapI32_eq_self
        (by omega : -2147483648 ≤ ((t1_deg_c c : Int) - (t0_deg_c c : Int)) * 10)
        (by omega)]
      have hp1 : -41615360 ≤ (t_out d - t0_out c) * (((t1_deg_c c : Int) - (t0_deg_c c : Int)) * 10) := by
        nlinarith
      have hp2 : (t_out d - t0_out c) * (((t1_deg_c c : Int) - (t0_deg_c c : Int)) * 10) ≤ 41615360 := by
        nlinarith
      rw [wrapI32_eq_self
        (by omega : -2147483648 ≤ (t_out d - t0_out c) * (((t1_deg_c c : Int) - (t0_deg_c c : Int)) * 10))
        (by omega)]
      have hq := tdiv_bounds ((t_out d - t0_out c) * (((t1_deg_c c : Int) - (t0_deg_c c : Int)) * 10))
        (t1_out c - t0_out c) 41615360 (by omega) (by omega)
      rw [wrapI32_eq_self
        (by omega : -2147483648 ≤ Int.tdiv ((t_out d - t0_out c) * (((t1_deg_c c : Int) - (t0_deg_c c : Int)) * 10)) (t1_out c - t0_out c) + (t0_deg_c c : Int) * 10)
        (by omega)]
      rw [← mul_assoc]
    · rw [if_neg hc, if_neg hc]
  · intro c2 d2 h
    simp only [hts_temp]
    rw [if_neg (show ¬ t1_out c2 ≠ t0_out c2 from fun hn => hn h)]

/-- C2 witness: `t0_degC = 10, t1_degC = 20, t0_out = 0, t1_out = 100,
t_out = 50` satisfies the no-wrap hypotheses, matches the claim's formula, and
yields 150 tenths of °C. -/
theorem hts221_temperature_formula_witness :
    hts_temp ⟨0, 0, 80, 160, 0, 0, 0, 0, 0, 0, 0, 0, 0, 0, 100, 0⟩ ⟨0, 0, 50, 0⟩
      = specTemperature ⟨0, 0, 80, 160, 0, 0, 0, 0, 0, 0, 0, 0, 0, 0, 100, 0⟩ ⟨0, 0, 50, 0⟩ ∧
    hts_temp ⟨0, 0, 80, 160, 0, 0, 0, 0, 0, 0, 0, 0, 0, 0, 100, 0⟩ ⟨0, 0, 50, 0⟩ = 150 :=
  ⟨(hts221_temperature_formula ⟨0, 0, 80, 160, 0, 0, 0, 0, 0, 0, 0, 0, 0, 0, 100, 0⟩ ⟨0, 0, 50, 0⟩
      (by decide) (by decide) (by decide) (by decide) (by decide)).1,
    by decide⟩

/-- C2 counterexample: with `t0_degC = 10, t1_degC = 0, t0_out = 0,
t1_out = 100, t_out = 50` the `u16` subtraction `t1_degC - t0_degC` wraps to
65526, so the code outputs 327730 while the claim's integer formula gives 50. -/
theorem hts221_temperature_formula_counterexample :
    hts_temp ⟨0, 0, 80, 0, 0, 0, 0, 0, 0, 0, 0, 0, 0, 0, 100, 0⟩ ⟨0, 0, 50, 0⟩
      ≠ specTemperature ⟨0, 0, 80, 0, 0, 0, 0, 0, 0, 0, 0, 0, 0, 0, 100, 0⟩ ⟨0, 0, 50, 0⟩ := by
  decide

/-- C7 (corrected): the output is one tab-separated line with the fields in the
fixed order timestamp, pressure, temperature-from-pressure-sensor, humidity,
temperature-from-humidity-sensor; each numeric field renders as its plain
decimal integer representation (Rust ignores the `.2` precision of `{:.2}` for
integer arguments), not with two decimal digits. -/
theorem record_line_fields (ts p tp h th : Int) :
    formatRecord ts p tp h th
      = String.intercalate "\t" [toString ts, toString p, toString tp, toString h, toString th] := by
  simp [formatRecord, String.intercalate, String.intercalate.go]

/-- C7 counterexample: for the record `(0, 1536, 425, 600, 425)` the produced
line is `0\t1536\t425\t600\t425`, not the two-decimal rendering
`0\t1536.00\t425.00\t600.00\t425.00` the claim requires. -/
theorem record_two_decimals_refuted :
    formatRecord 0 1536 425 600 425 ≠ specFormatRecord 0 1536 425 600 425 := by
  decide

/-- C8: transport errors propagate unchanged through both decoders (the first
failing bus operation's error is returned as-is, with no retry and no
transformation), a failing decoder makes the whole run fail with that same
error, and a record is produced exactly when both decoders succeed — never a
partial result. -/
theorem bus_error_propagation (ε : Type) (lps : LpsBus ε) (hts : HtsBus ε) (ts : Int) :
    (∀ e : ε, lps.writeCmd = Except.error e → read_lps25h lps = Except.error e) ∧
    (∀ e : ε, lps.writeCmd = Except.ok () → lps.readData = Except.error e →
      read_lps25h lps = Except.error e) ∧
    (∀ e : ε, hts.writeCalibCmd = Except.error e → read_hts221 hts = Except.error e) ∧
    (∀ e : ε, hts.writeCalibCmd = Except.ok () → hts.readCalib = Except.error e →
      read_hts221 hts = Except.error e) ∧
    (∀ (e : ε) (cb : CalibrationBlock), hts.writeCalibCmd = Except.ok () →
      hts.readCalib = Except.ok cb → hts.writeDataCmd = Except.error e →
      read_hts221 hts = Except.error e) ∧
    (∀ (e : ε) (cb : CalibrationBlock), hts.writeCalibCmd = Except.ok () →
      hts.readCalib = Except.ok cb → hts.writeDataCmd = Except.ok () →
      hts.readData = Except.error e → read_hts221 hts = Except.error e) ∧
    (∀ e : ε, read_lps25h lps = Except.error e → runMain lps hts ts = Except.error e) ∧
    (∀ (e : ε) (pr : Int × Int), read_lps25h lps = Except.ok pr →
      read_hts221 hts = Except.error e → runMain lps hts ts = Except.error e) ∧
    (∀ s : String, runMain lps hts ts = Except.ok s →
      ∃ p tp h th : Int, read_lps25h lps = Except.ok (p, tp) ∧
        read_hts221 hts = Except.ok (h, th) ∧ s = formatRecord ts p tp h th) := by
  obtain ⟨w1, r1⟩ := lps
  obtain ⟨hw1, hr1, hw2, hr2⟩ := hts
  cases w1 <;> cases r1 <;> cases hw1 <;> cases hr1 <;> cases hw2 <;> cases hr2 <;>
    simp_all [read_lps25h, read_hts221, runMain, Bind.bind, Except.bind, pure, Except.pure]
  exact ⟨_, _, rfl, _, _, ⟨rfl, rfl⟩, rfl⟩

/-- C8 witness: a bus whose calibration read fails with error 7 makes
`read_hts221` return exactly error 7, and the whole run fail with error 7 even
though the pressure decoder succeeded. -/
theorem bus_error_propagation_witness :
    read_hts221 (⟨Except.ok (), Except.error 7, Except.ok (), Except.error 9⟩ : HtsBus Nat)
      = Except.error 7 ∧
    runMain (⟨Except.ok (), Except.ok ⟨0, 0, 0x60, 0, 0⟩⟩ : LpsBus Nat)
      (⟨Except.ok (), Except.error 7, Except.ok (), Except.error 9⟩ : HtsBus Nat) 0
      = Except.error 7 := by
  have h := bus_error_propagation Nat ⟨Except.ok (), Except.ok ⟨0, 0, 0x60, 0, 0⟩⟩
    ⟨Except.ok (), Except.error 7, Except.ok (), Except.error 9⟩ 0
  exact ⟨h.2.2.2.1 7 rfl rfl,
    h.2.2.2.2.2.2.2.1 7 (1536, 425) rfl (h.2.2.2.1 7 rfl rfl)⟩

/-- C4 witness: a concrete non-degenerate block (`h1_t0_out = 100`,
`h0_t0_out = 0`) on which the output range holds and the guarded divisor is
nonzero. -/
theorem hts221_humidity_saturation_witness :
    0 ≤ hts_hum ⟨0, 0, 0, 0, 0, 0, 0, 0, 0, 0, 100, 0, 0, 0, 0, 0⟩ ⟨1, 2, 3, 4⟩ ∧
    hts_hum ⟨0, 0, 0, 0, 0, 0, 0, 0, 0, 0, 100, 0, 0, 0, 0, 0⟩ ⟨1, 2, 3, 4⟩ ≤ 1000 ∧
    wrapI16 (h1_t0_out ⟨0, 0, 0, 0, 0, 0, 0, 0, 0, 0, 100, 0, 0, 0, 0, 0⟩
      - h0_t0_out ⟨0, 0, 0, 0, 0, 0, 0, 0, 0, 0, 100, 0, 0, 0, 0, 0⟩) ≠ 0 :=
  ⟨(hts221_humidity_saturation ⟨0, 0, 0, 0, 0, 0, 0, 0, 0, 0, 100, 0, 0, 0, 0, 0⟩ ⟨1, 2, 3, 4⟩).1,
    (hts221_humidity_saturation ⟨0, 0, 0, 0, 0, 0, 0, 0, 0, 0, 100, 0, 0, 0, 0, 0⟩ ⟨1, 2, 3, 4⟩).2.1,
    (hts221_humidity_saturation ⟨0, 0, 0, 0, 0, 0, 0, 0, 0, 0, 100, 0, 0, 0, 0, 0⟩ ⟨1, 2, 3, 4⟩).2.2
      (by decide)⟩
